import Mathlib

/-!
Shallow embedding of the `tristan::date`, `tristan::time` and
`tristan::date_time` value types of the repository (src/src/date.cpp,
src/src/time.cpp, src/src/date_time.cpp, headers under src/inc), together
with theorems settling the spec claims about them.

Machine integers are modelled as `Nat` (the C++ unsigned types) and `Int`
(`int64_t` chrono representation counts), with explicit wrap-around
(`% 256`, `% 65536`) exactly where the source performs a narrowing
conversion.  C++ integer division and remainder truncate toward zero, hence
`Int.tdiv` / `Int.tmod` are used where a signed count is divided.
Throwing code is modelled with `Except Err`.
-/

namespace Tristan

/-- Error kinds raised by the source: `std::range_error`,
`std::invalid_argument` (invalid format) and `std::bad_variant_access`. -/
inductive Err where
  | range
  | format
  | variantAccess
deriving DecidableEq, Repr

/-- Narrowing conversion of a signed value to `uint8_t` (mod 2^8). -/
def u8i (x : Int) : Nat := (x % 256).toNat

/-- Narrowing conversion of a signed value to `uint16_t` (mod 2^16). -/
def u16i (x : Int) : Nat := (x % 65536).toNat

/-- Narrowing conversion of an unsigned value to `uint8_t`. -/
def u8n (n : Nat) : Nat := n % 256

namespace Time

/-- `tristan::time::Precision` (time.hpp): underlying ordinals
MINUTES = 0, SECONDS = 1, MILLISECONDS = 2, MICROSECONDS = 3,
NANOSECONDS = 4. -/
inductive Precision where
  | MINUTES
  | SECONDS
  | MILLISECONDS
  | MICROSECONDS
  | NANOSECONDS
deriving DecidableEq, Repr

/-- The underlying integer of the `Precision` enum. -/
def Precision.rank : Precision → Nat
  | .MINUTES => 0
  | .SECONDS => 1
  | .MILLISECONDS => 2
  | .MICROSECONDS => 3
  | .NANOSECONDS => 4

/-- `std::max` on `Precision` (comparison of the underlying ordinals;
returns the first argument when the second is smaller). -/
def Precision.max (a b : Precision) : Precision :=
  if b.rank < a.rank then a else b

/-- The `std::variant<minutes, seconds, milliseconds, microseconds,
nanoseconds>` member `m_time_since_day_start`: one signed count tagged by
its unit. -/
inductive Store where
  | minutes (v : Int)
  | seconds (v : Int)
  | milliseconds (v : Int)
  | microseconds (v : Int)
  | nanoseconds (v : Int)
deriving DecidableEq, Repr

/-- The alternative currently held by the variant, as a `Precision`. -/
def Store.tag : Store → Precision
  | .minutes _ => .MINUTES
  | .seconds _ => .SECONDS
  | .milliseconds _ => .MILLISECONDS
  | .microseconds _ => .MICROSECONDS
  | .nanoseconds _ => .NANOSECONDS

/-- `std::variant::index()` of the stored alternative. -/
def Store.idx (s : Store) : Nat := s.tag.rank

/-- The stored count, unit-tagged by `Store.tag`. -/
def Store.val : Store → Int
  | .minutes v => v
  | .seconds v => v
  | .milliseconds v => v
  | .microseconds v => v
  | .nanoseconds v => v

/-- `operator==` on the variant: equal index and equal count. -/
def Store.beqv (a b : Store) : Bool := a.idx == b.idx && a.val == b.val

/-- `operator<` on the variant: index-major, count-minor. -/
def Store.ltv (a b : Store) : Bool :=
  a.idx < b.idx || (a.idx == b.idx && decide (a.val < b.val))

end Time

/-- `tristan::time::Time`: variant duration since day start, time-zone
offset (an hour count, `tristan::TimeZone`), and precision tag. -/
structure Time where
  store : Time.Store
  offset : Int
  precision : Time.Precision
deriving DecidableEq, Repr

namespace Time

/-- The variant holds the alternative named by the precision tag (true of
every `Time` produced by a constructor). -/
def wfTag (t : Time) : Prop := t.store.tag = t.precision

instance (t : Time) : Decidable t.wfTag := by unfold wfTag; infer_instance

/-- `Time::_addMinutes` (time.cpp): requires the variant to hold minutes
(`std::get` raises `std::bad_variant_access` otherwise); adds, then wraps
only when the count strictly exceeds 1440. -/
def _addMinutes (n : Nat) : Store → Except Err Store
  | .minutes v =>
      let v := v + n
      .ok (.minutes (if v > 1440 then Int.tmod v 1440 else v))
  | _ => .error .variantAccess

/-- `Time::_addSeconds`: wraps only when the count strictly exceeds 86400. -/
def _addSeconds (n : Nat) : Store → Except Err Store
  | .seconds v =>
      let v := v + n
      .ok (.seconds (if v > 86400 then Int.tmod v 86400 else v))
  | _ => .error .variantAccess

/-- `Time::_addMilliseconds`: wraps only strictly above 86400000. -/
def _addMilliseconds (n : Nat) : Store → Except Err Store
  | .milliseconds v =>
      let v := v + n
      .ok (.milliseconds (if v > 86400000 then Int.tmod v 86400000 else v))
  | _ => .error .variantAccess

/-- `Time::_addMicroseconds`: the count is compared through a
`static_cast<uint64_t>` before wrapping strictly above 86400000000. -/
def _addMicroseconds (n : Nat) : Store → Except Err Store
  | .microseconds v =>
      let v := v + n
      .ok (.microseconds
        (if (v % 18446744073709551616).toNat > 86400000000 then
          Int.tmod v 86400000000 else v))
  | _ => .error .variantAccess

/-- `Time::_addNanoseconds`: the count is compared through a
`static_cast<uint64_t>` before wrapping strictly above 86400000000000. -/
def _addNanoseconds (n : Nat) : Store → Except Err Store
  | .nanoseconds v =>
      let v := v + n
      .ok (.nanoseconds
        (if (v % 18446744073709551616).toNat > 86400000000000 then
          Int.tmod v 86400000000000 else v))
  | _ => .error .variantAccess

/-- `Time::_subtractMinutes`: subtracts, adds one day back when negative. -/
def _subtractMinutes (n : Nat) : Store → Except Err Store
  | .minutes v =>
      let v := v - n
      .ok (.minutes (if v < 0 then v + 1440 else v))
  | _ => .error .variantAccess

/-- `Time::_subtractSeconds`. -/
def _subtractSeconds (n : Nat) : Store → Except Err Store
  | .seconds v =>
      let v := v - n
      .ok (.seconds (if v < 0 then v + 86400 else v))
  | _ => .error .variantAccess

/-- `Time::_subtractMilliseconds`. -/
def _subtractMilliseconds (n : Nat) : Store → Except Err Store
  | .milliseconds v =>
      let v := v - n
      .ok (.milliseconds (if v < 0 then v + 86400000 else v))
  | _ => .error .variantAccess

/-- `Time::_subtractMicroseconds`. -/
def _subtractMicroseconds (n : Nat) : Store → Except Err Store
  | .microseconds v =>
      let v := v - n
      .ok (.microseconds (if v < 0 then v + 86400000000 else v))
  | _ => .error .variantAccess

/-- `Time::_subtractNanoseconds`. -/
def _subtractNanoseconds (n : Nat) : Store → Except Err Store
  | .nanoseconds v =>
      let v := v - n
      .ok (.nanoseconds (if v < 0 then v + 86400000000000 else v))
  | _ => .error .variantAccess

end Time

namespace Time

/-! The public `add*`/`subtract*` members dispatch on `m_precision`; the
`MINUTES` case of the sub-minute members in time.cpp has no `break`, so
after its `_addMinutes`/`_subtractMinutes` call control falls through into
the `SECONDS` case body.  Each member mutates only
`m_time_since_day_start`, so it is embedded as a function on the store,
wrapped by a `Time`-level function below. -/

/-- `Time::addHours`, acting on the store. -/
def addHoursCore (n : Nat) (p : Precision) (s : Store) : Except Err Store :=
  if n == 0 then .ok s
  else
    let n := if n > 23 then n % 24 else n
    match p with
    | .MINUTES => _addMinutes (n * 60) s
    | .SECONDS => _addSeconds (n * 3600) s
    | .MILLISECONDS => _addMilliseconds (n * 3600000) s
    | .MICROSECONDS => _addMicroseconds (n * 3600000000) s
    | .NANOSECONDS => _addNanoseconds (n * 3600000000000) s

/-- `Time::addMinutes`, acting on the store. -/
def addMinutesCore (n : Nat) (p : Precision) (s : Store) : Except Err Store :=
  if n == 0 then .ok s
  else
    let n := if n > 1440 then n % 1440 else n
    match p with
    | .MINUTES => _addMinutes n s
    | .SECONDS => _addSeconds (n * 60) s
    | .MILLISECONDS => _addMilliseconds (n * 60000) s
    | .MICROSECONDS => _addMicroseconds (n * 60000000) s
    | .NANOSECONDS => _addNanoseconds (n * 60000000000) s

/-- `Time::addSeconds`, acting on the store.  In the `MINUTES` case the
source adds `seconds % 60` minutes and then, missing a `break`, falls
through into the `SECONDS` case's `_addSeconds` call. -/
def addSecondsCore (n : Nat) (p : Precision) (s : Store) : Except Err Store :=
  if n == 0 then .ok s
  else
    let n := if n > 86400 then n % 86400 else n
    match p with
    | .MINUTES =>
        if n < 60 then .ok s
        else do
          let s ← _addMinutes (n % 60) s
          _addSeconds n s
    | .SECONDS => _addSeconds n s
    | .MILLISECONDS => _addMilliseconds (n * 1000) s
    | .MICROSECONDS => _addMicroseconds (n * 1000000) s
    | .NANOSECONDS => _addNanoseconds (n * 1000000000) s

/-- `Time::addMilliseconds`, acting on the store (same missing `break` in
the `MINUTES` case). -/
def addMillisecondsCore (n : Nat) (p : Precision) (s : Store) :
    Except Err Store :=
  if n == 0 then .ok s
  else
    let n := if n > 86400000 then n % 86400000 else n
    match p with
    | .MINUTES =>
        if n < 60000 then .ok s
        else do
          let s ← _addMinutes (n % 60000) s
          if n < 1000 then .ok s else _addSeconds (n % 1000) s
    | .SECONDS => if n < 1000 then .ok s else _addSeconds (n % 1000) s
    | .MILLISECONDS => _addMilliseconds n s
    | .MICROSECONDS => _addMicroseconds (n * 1000) s
    | .NANOSECONDS => _addNanoseconds (n * 1000000) s

/-- `Time::addMicroseconds`, acting on the store. -/
def addMicrosecondsCore (n : Nat) (p : Precision) (s : Store) :
    Except Err Store :=
  if n == 0 then .ok s
  else
    let n := if n > 86400000000 then n % 86400000000 else n
    match p with
    | .MINUTES =>
        if n < 60000000 then .ok s
        else do
          let s ← _addMinutes (n % 60000000) s
          if n < 1000000 then .ok s else _addSeconds (n % 1000000) s
    | .SECONDS => if n < 1000000 then .ok s else _addSeconds (n % 1000000) s
    | .MILLISECONDS => if n < 1000 then .ok s else _addMilliseconds (n % 1000) s
    | .MICROSECONDS => _addMicroseconds n s
    | .NANOSECONDS => _addNanoseconds (n * 1000) s

/-- `Time::addNanoseconds`, acting on the store. -/
def addNanosecondsCore (n : Nat) (p : Precision) (s : Store) :
    Except Err Store :=
  if n == 0 then .ok s
  else
    let n := if n > 86400000000000 then n % 86400000000000 else n
    match p with
    | .MINUTES =>
        if n < 60000000000 then .ok s
        else do
          let s ← _addMinutes (n % 60000000000) s
          if n < 1000000000 then .ok s else _addSeconds (n % 1000000000) s
    | .SECONDS =>
        if n < 1000000000 then .ok s else _addSeconds (n % 1000000000) s
    | .MILLISECONDS =>
        if n < 1000000 then .ok s else _addMilliseconds (n % 1000000) s
    | .MICROSECONDS => if n < 1000 then .ok s else _addMicroseconds (n % 1000) s
    | .NANOSECONDS => _addNanoseconds n s

/-- `Time::subtractHours`, acting on the store. -/
def subtractHoursCore (n : Nat) (p : Precision) (s : Store) :
    Except Err Store :=
  if n == 0 then .ok s
  else
    let n := if n > 23 then n % 24 else n
    match p with
    | .MINUTES => _subtractMinutes (n * 60) s
    | .SECONDS => _subtractSeconds (n * 3600) s
    | .MILLISECONDS => _subtractMilliseconds (n * 3600000) s
    | .MICROSECONDS => _subtractMicroseconds (n * 3600000000) s
    | .NANOSECONDS => _subtractNanoseconds (n * 3600000000000) s

/-- `Time::subtractMinutes`, acting on the store. -/
def subtractMinutesCore (n : Nat) (p : Precision) (s : Store) :
    Except Err Store :=
  if n == 0 then .ok s
  else
    let n := if n > 1440 then n % 1440 else n
    match p with
    | .MINUTES => _subtractMinutes n s
    | .SECONDS => _subtractSeconds (n * 60) s
    | .MILLISECONDS => _subtractMilliseconds (n * 60000) s
    | .MICROSECONDS => _subtractMicroseconds (n * 60000000) s
    | .NANOSECONDS => _subtractNanoseconds (n * 60000000000) s

/-- `Time::subtractSeconds`, acting on the store (missing `break` in the
`MINUTES` case, as in `addSeconds`). -/
def subtractSecondsCore (n : Nat) (p : Precision) (s : Store) :
    Except Err Store :=
  if n == 0 then .ok s
  else
    let n := if n > 86400 then n % 86400 else n
    match p with
    | .MINUTES =>
        if n < 60 then .ok s
        else do
          let s ← _subtractMinutes (n % 60) s
          _subtractSeconds n s
    | .SECONDS => _subtractSeconds n s
    | .MILLISECONDS => _subtractMilliseconds (n * 1000) s
    | .MICROSECONDS => _subtractMicroseconds (n * 1000000) s
    | .NANOSECONDS => _subtractNanoseconds (n * 1000000000) s

/-- `Time::subtractMilliseconds`, acting on the store. -/
def subtractMillisecondsCore (n : Nat) (p : Precision) (s : Store) :
    Except Err Store :=
  if n == 0 then .ok s
  else
    let n := if n > 86400000 then n % 86400000 else n
    match p with
    | .MINUTES =>
        if n < 60000 then .ok s
        else do
          let s ← _subtractMinutes (n % 60000) s
          if n < 1000 then .ok s else _subtractSeconds (n % 1000) s
    | .SECONDS => if n < 1000 then .ok s else _subtractSeconds (n % 1000) s
    | .MILLISECONDS => _subtractMilliseconds n s
    | .MICROSECONDS => _subtractMicroseconds (n * 1000) s
    | .NANOSECONDS => _subtractNanoseconds (n * 1000000) s

/-- `Time::subtractMicroseconds`, acting on the store. -/
def subtractMicrosecondsCore (n : Nat) (p : Precision) (s : Store) :
    Except Err Store :=
  if n == 0 then .ok s
  else
    let n := if n > 86400000000 then n % 86400000000 else n
    match p with
    | .MINUTES =>
        if n < 60000000 then .ok s
        else do
          let s ← _subtractMinutes (n % 60000000) s
          if n < 1000000 then .ok s else _subtractSeconds (n % 1000000) s
    | .SECONDS =>
        if n < 1000000 then .ok s else _subtractSeconds (n % 1000000) s
    | .MILLISECONDS =>
        if n < 1000 then .ok s else _subtractMilliseconds (n % 1000) s
    | .MICROSECONDS => _subtractMicroseconds n s
    | .NANOSECONDS => _subtractNanoseconds (n * 1000) s

/-- `Time::subtractNanoseconds`, acting on the store. -/
def subtractNanosecondsCore (n : Nat) (p : Precision) (s : Store) :
    Except Err Store :=
  if n == 0 then .ok s
  else
    let n := if n > 86400000000000 then n % 86400000000000 else n
    match p with
    | .MINUTES =>
        if n < 60000000000 then .ok s
        else do
          let s ← _subtractMinutes (n % 60000000000) s
          if n < 1000000000 then .ok s else _subtractSeconds (n % 1000000000) s
    | .SECONDS =>
        if n < 1000000000 then .ok s else _subtractSeconds (n % 1000000000) s
    | .MILLISECONDS =>
        if n < 1000000 then .ok s else _subtractMilliseconds (n % 1000000) s
    | .MICROSECONDS =>
        if n < 1000 then .ok s else _subtractMicroseconds (n % 1000) s
    | .NANOSECONDS => _subtractNanoseconds n s

end Time

namespace Time

/-- `Time::addHours`. -/
def addHours (n : Nat) (t : Time) : Except Err Time :=
  (addHoursCore n t.precision t.store).map fun s => { t with store := s }

/-- `Time::addMinutes`. -/
def addMinutes (n : Nat) (t : Time) : Except Err Time :=
  (addMinutesCore n t.precision t.store).map fun s => { t with store := s }

/-- `Time::addSeconds`. -/
def addSeconds (n : Nat) (t : Time) : Except Err Time :=
  (addSecondsCore n t.precision t.store).map fun s => { t with store := s }

/-- `Time::addMilliseconds`. -/
def addMilliseconds (n : Nat) (t : Time) : Except Err Time :=
  (addMillisecondsCore n t.precision t.store).map fun s => { t with store := s }

/-- `Time::addMicroseconds`. -/
def addMicroseconds (n : Nat) (t : Time) : Except Err Time :=
  (addMicrosecondsCore n t.precision t.store).map fun s => { t with store := s }

/-- `Time::addNanoseconds`. -/
def addNanoseconds (n : Nat) (t : Time) : Except Err Time :=
  (addNanosecondsCore n t.precision t.store).map fun s => { t with store := s }

/-- `Time::subtractHours`. -/
def subtractHours (n : Nat) (t : Time) : Except Err Time :=
  (subtractHoursCore n t.precision t.store).map fun s => { t with store := s }

/-- `Time::subtractMinutes`. -/
def subtractMinutes (n : Nat) (t : Time) : Except Err Time :=
  (subtractMinutesCore n t.precision t.store).map fun s => { t with store := s }

/-- `Time::subtractSeconds`. -/
def subtractSeconds (n : Nat) (t : Time) : Except Err Time :=
  (subtractSecondsCore n t.precision t.store).map fun s => { t with store := s }

/-- `Time::subtractMilliseconds`. -/
def subtractMilliseconds (n : Nat) (t : Time) : Except Err Time :=
  (subtractMillisecondsCore n t.precision t.store).map fun s =>
    { t with store := s }

/-- `Time::subtractMicroseconds`. -/
def subtractMicroseconds (n : Nat) (t : Time) : Except Err Time :=
  (subtractMicrosecondsCore n t.precision t.store).map fun s =>
    { t with store := s }

/-- `Time::subtractNanoseconds`. -/
def subtractNanoseconds (n : Nat) (t : Time) : Except Err Time :=
  (subtractNanosecondsCore n t.precision t.store).map fun s =>
    { t with store := s }

end Time

namespace Time

/-! Field accessors (time.cpp): each is a `std::visit` computing
`duration_cast` differences on the stored count; a cast to a finer unit
multiplies by the exact ratio, a cast to a coarser unit divides truncating
toward zero.  Accessors strictly finer than the precision return 0. -/

/-- `Time::hours()`: `duration_cast<hours>(value)`, returned as `uint8_t`. -/
def hours (t : Time) : Nat :=
  u8i (match t.store with
  | .minutes v => Int.tdiv v 60
  | .seconds v => Int.tdiv v 3600
  | .milliseconds v => Int.tdiv v 3600000
  | .microseconds v => Int.tdiv v 3600000000
  | .nanoseconds v => Int.tdiv v 3600000000000)

/-- `Time::minutes()`:
`duration_cast<minutes>(value) - duration_cast<minutes>(duration_cast<hours>(value))`. -/
def minutes (t : Time) : Nat :=
  u8i (match t.store with
  | .minutes v => v - Int.tdiv v 60 * 60
  | .seconds v => Int.tdiv v 60 - Int.tdiv v 3600 * 60
  | .milliseconds v => Int.tdiv v 60000 - Int.tdiv v 3600000 * 60
  | .microseconds v => Int.tdiv v 60000000 - Int.tdiv v 3600000000 * 60
  | .nanoseconds v => Int.tdiv v 60000000000 - Int.tdiv v 3600000000000 * 60)

/-- `Time::seconds()`: 0 below `SECONDS` precision, else
`duration_cast<seconds>(value) - duration_cast<seconds>(duration_cast<minutes>(value))`. -/
def seconds (t : Time) : Nat :=
  if t.precision.rank < Precision.SECONDS.rank then 0
  else
    u8i (match t.store with
    | .minutes v => v * 60 - v * 60
    | .seconds v => v - Int.tdiv v 60 * 60
    | .milliseconds v => Int.tdiv v 1000 - Int.tdiv v 60000 * 60
    | .microseconds v => Int.tdiv v 1000000 - Int.tdiv v 60000000 * 60
    | .nanoseconds v => Int.tdiv v 1000000000 - Int.tdiv v 60000000000 * 60)

/-- `Time::milliseconds()`: 0 below `MILLISECONDS` precision, else
`duration_cast<milliseconds>(value) - duration_cast<milliseconds>(duration_cast<seconds>(value))`,
returned as `uint16_t`. -/
def milliseconds (t : Time) : Nat :=
  if t.precision.rank < Precision.MILLISECONDS.rank then 0
  else
    u16i (match t.store with
    | .minutes v => v * 60000 - v * 60 * 1000
    | .seconds v => v * 1000 - v * 1000
    | .milliseconds v => v - Int.tdiv v 1000 * 1000
    | .microseconds v => Int.tdiv v 1000 - Int.tdiv v 1000000 * 1000
    | .nanoseconds v => Int.tdiv v 1000000 - Int.tdiv v 1000000000 * 1000)

/-- `Time::microseconds()`: 0 below `MICROSECONDS` precision. -/
def microseconds (t : Time) : Nat :=
  if t.precision.rank < Precision.MICROSECONDS.rank then 0
  else
    u16i (match t.store with
    | .minutes v => v * 60000000 - v * 60000 * 1000
    | .seconds v => v * 1000000 - v * 1000 * 1000
    | .milliseconds v => v * 1000 - v * 1000
    | .microseconds v => v - Int.tdiv v 1000 * 1000
    | .nanoseconds v => Int.tdiv v 1000 - Int.tdiv v 1000000 * 1000)

/-- `Time::nanoseconds()`: 0 below `NANOSECONDS` precision. -/
def nanoseconds (t : Time) : Nat :=
  if t.precision.rank < Precision.NANOSECONDS.rank then 0
  else
    u16i (match t.store with
    | .minutes v => v * 60000000000 - v * 60000000 * 1000
    | .seconds v => v * 1000000000 - v * 1000000 * 1000
    | .milliseconds v => v * 1000000 - v * 1000 * 1000
    | .microseconds v => v * 1000 - v * 1000
    | .nanoseconds v => v - Int.tdiv v 1000 * 1000)

end Time

/-- `Time::Time(uint8_t hours, uint8_t minutes)`: range-checks
hours 0..23 and minutes 0..59 (`std::range_error`), stores
`minutes{hours * 60 + minutes}`, precision `MINUTES`, offset UTC. -/
def timeFromHM (hours minutes : Nat) : Except Err Time :=
  if hours > 23 then .error .range
  else if minutes > 59 then .error .range
  else .ok ⟨.minutes (hours * 60 + minutes), 0, .MINUTES⟩

/-- `Time::Time(uint8_t, uint8_t, uint8_t)`: delegates to the two-argument
constructor, range-checks seconds 0..59, replaces the stored minutes `m`
by `duration_cast<seconds>(m) + seconds{s}` and sets precision `SECONDS`. -/
def timeFromHMS (hours minutes seconds : Nat) : Except Err Time := do
  let t ← timeFromHM hours minutes
  if seconds > 59 then .error .range
  else
    match t.store with
    | .minutes v => .ok ⟨.seconds (v * 60 + seconds), t.offset, .SECONDS⟩
    | _ => .error .variantAccess

/-- `Time::operator==` (time.cpp): differing precision compares unequal,
otherwise the variants are compared. -/
def timeEq (l r : Time) : Bool :=
  if l.precision ≠ r.precision then false
  else Time.Store.beqv l.store r.store

/-- `Time::operator<`: differing precision compares not-less, otherwise
the variants are compared. -/
def timeLt (l r : Time) : Bool :=
  if l.precision ≠ r.precision then false
  else Time.Store.ltv l.store r.store

/-- `tristan::time::operator!=`: `!(l == r)`. -/
def timeNe (l r : Time) : Bool := !(timeEq l r)

/-- `tristan::time::operator<=`: `l < r || l == r`. -/
def timeLe (l r : Time) : Bool := timeLt l r || timeEq l r

/-- `tristan::time::operator>`: `!(l <= r)`. -/
def timeGt (l r : Time) : Bool := !(timeLe l r)

/-- `tristan::time::operator>=`: `l > r || l == r`. -/
def timeGe (l r : Time) : Bool := timeGt l r || timeEq l r

/-- The switch of `tristan::time::operator+` (time.cpp lines 886-908): a
fallthrough cascade selected by the copy's precision `p`, adding each
accessor value of `r` into `t` from the finest level of `p` down to
minutes and hours. -/
def timeAddAt (p : Time.Precision) (t r : Time) : Except Err Time :=
  match p with
  | .NANOSECONDS => do
      let t ← Time.addNanoseconds r.nanoseconds t
      let t ← Time.addMicroseconds r.microseconds t
      let t ← Time.addMilliseconds r.milliseconds t
      let t ← Time.addSeconds r.seconds t
      let t ← Time.addMinutes r.minutes t
      Time.addHours r.hours t
  | .MICROSECONDS => do
      let t ← Time.addMicroseconds r.microseconds t
      let t ← Time.addMilliseconds r.milliseconds t
      let t ← Time.addSeconds r.seconds t
      let t ← Time.addMinutes r.minutes t
      Time.addHours r.hours t
  | .MILLISECONDS => do
      let t ← Time.addMilliseconds r.milliseconds t
      let t ← Time.addSeconds r.seconds t
      let t ← Time.addMinutes r.minutes t
      Time.addHours r.hours t
  | .SECONDS => do
      let t ← Time.addSeconds r.seconds t
      let t ← Time.addMinutes r.minutes t
      Time.addHours r.hours t
  | .MINUTES => do
      let t ← Time.addMinutes r.minutes t
      Time.addHours r.hours t

/-- `tristan::time::operator+`: copies `l`, sets the copy's precision to
`std::max` of the two operand precisions, and runs the cascade selected
by that precision. -/
def timeAdd (l r : Time) : Except Err Time :=
  let p := Time.Precision.max l.precision r.precision
  timeAddAt p { l with precision := p } r

/-- The switch of `tristan::time::operator-` (time.cpp lines 915-937):
the same cascade with the `subtract*` members. -/
def timeSubAt (p : Time.Precision) (t r : Time) : Except Err Time :=
  match p with
  | .NANOSECONDS => do
      let t ← Time.subtractNanoseconds r.nanoseconds t
      let t ← Time.subtractMicroseconds r.microseconds t
      let t ← Time.subtractMilliseconds r.milliseconds t
      let t ← Time.subtractSeconds r.seconds t
      let t ← Time.subtractMinutes r.minutes t
      Time.subtractHours r.hours t
  | .MICROSECONDS => do
      let t ← Time.subtractMicroseconds r.microseconds t
      let t ← Time.subtractMilliseconds r.milliseconds t
      let t ← Time.subtractSeconds r.seconds t
      let t ← Time.subtractMinutes r.minutes t
      Time.subtractHours r.hours t
  | .MILLISECONDS => do
      let t ← Time.subtractMilliseconds r.milliseconds t
      let t ← Time.subtractSeconds r.seconds t
      let t ← Time.subtractMinutes r.minutes t
      Time.subtractHours r.hours t
  | .SECONDS => do
      let t ← Time.subtractSeconds r.seconds t
      let t ← Time.subtractMinutes r.minutes t
      Time.subtractHours r.hours t
  | .MINUTES => do
      let t ← Time.subtractMinutes r.minutes t
      Time.subtractHours r.hours t

/-- `tristan::time::operator-`: copies `l`, sets the copy's precision to
`std::max` of the two operand precisions, and runs the cascade selected
by that precision. -/
def timeSub (l r : Time) : Except Err Time :=
  let p := Time.Precision.max l.precision r.precision
  timeSubAt p { l with precision := p } r

/-- `Date::isLeapYear` (date.cpp): divisible by 4 and (not by 100, or by
400). -/
def isLeapYear (year : Nat) : Bool :=
  if year % 4 == 0 then
    if year % 100 == 0 then
      if year % 400 == 0 then true else false
    else true
  else false

/-- `tristan::date::Date`: the single data member `m_days_since_1900`, a
signed day count (`Days`, `int64_t` representation). -/
structure Date where
  days : Int
deriving DecidableEq, Repr

/-- `Date::_calculateCurrentYear`: `number_of_leap_days` is the day count
divided by 1460 narrowed to `uint8_t`; the result
`(count - number_of_leap_days) / 365` is returned as `uint8_t`. -/
def calcCurrentYear (days : Int) : Nat :=
  let numberOfLeapDays : Nat := u8i (Int.tdiv days 1460)
  u8i (Int.tdiv (days - numberOfLeapDays) 365)

/-- `Date::_calculateDaysInYear`: the `uint8_t` leap-day estimate is
decremented (with `uint8_t` wrap) when the current year is leap, and
`count - years * 365 - leap_days` is returned as `uint16_t`. -/
def calcDaysInYear (days : Int) : Nat :=
  let n0 : Nat := u8i (Int.tdiv days 1460)
  let n : Nat :=
    if isLeapYear (calcCurrentYear days + 1900) then u8i ((n0 : Int) - 1) else n0
  let years : Nat := calcCurrentYear days
  u16i (days - (years : Int) * 365 - (n : Int))

/-- `Date::_calculateCurrentMonth`: compares the day-of-year against the
fixed month-start thresholds, with the leap column of each pair used in a
leap year. -/
def calcCurrentMonth (days : Int) : Nat :=
  let doy := calcDaysInYear days
  let leap := isLeapYear (calcCurrentYear days + 1900)
  if (!leap && doy ≥ 335) || (leap && doy ≥ 336) then 12
  else if (!leap && doy ≥ 305) || (leap && doy ≥ 306) then 11
  else if (!leap && doy ≥ 274) || (leap && doy ≥ 275) then 10
  else if (!leap && doy ≥ 244) || (leap && doy ≥ 245) then 9
  else if (!leap && doy ≥ 213) || (leap && doy ≥ 214) then 8
  else if (!leap && doy ≥ 182) || (leap && doy ≥ 183) then 7
  else if (!leap && doy ≥ 152) || (leap && doy ≥ 153) then 6
  else if (!leap && doy ≥ 121) || (leap && doy ≥ 122) then 5
  else if (!leap && doy ≥ 91) || (leap && doy ≥ 92) then 4
  else if (!leap && doy ≥ 60) || (leap && doy ≥ 61) then 3
  else if doy ≥ 32 then 2
  else 1

/-- The loop body of `Date::_calculateDayOfTheMonth`: months
`current - 1` down to 1 subtract their length from the `uint16_t`
accumulator (the source's leap test inside the loop is constant for a
fixed date and is passed in once). -/
def domLoop (leap : Bool) : Nat → Nat → Nat
  | 0, acc => acc
  | m + 1, acc =>
      let mm := m + 1
      let step : Nat :=
        if mm = 1 ∨ mm = 3 ∨ mm = 5 ∨ mm = 7 ∨ mm = 8 ∨ mm = 10 ∨ mm = 12 then 31
        else if mm = 4 ∨ mm = 6 ∨ mm = 9 ∨ mm = 11 then 30
        else if leap then 29 else 28
      domLoop leap m (u16i ((acc : Int) - step))

/-- `Date::_calculateDayOfTheMonth`: starts from the day-of-year,
subtracts the lengths of the preceding months, returns `uint8_t`. -/
def calcDayOfTheMonth (days : Int) : Nat :=
  u8n (domLoop (isLeapYear (calcCurrentYear days + 1900))
    (calcCurrentMonth days - 1) (calcDaysInYear days))

namespace Date

/-- `Date::dayOfTheMonth()`. -/
def dayOfTheMonth (d : Date) : Nat := calcDayOfTheMonth d.days

/-- `Date::dayOfTheWeek()`: `m_days_since_1900.count() % 7` as `uint8_t`. -/
def dayOfTheWeek (d : Date) : Nat := u8i (Int.tmod d.days 7)

/-- `Date::month()`. -/
def month (d : Date) : Nat := calcCurrentMonth d.days

/-- `Date::year()`: `_calculateCurrentYear() + 1900`. -/
def year (d : Date) : Nat := calcCurrentYear d.days + 1900

/-- `Date::isWeekend()`: `dayOfTheWeek() > 5`. -/
def isWeekend (d : Date) : Bool := d.dayOfTheWeek > 5

/-- `Date::addDays`: plain increment of the linear count. -/
def addDays (n : Nat) (d : Date) : Date :=
  if n == 0 then d else ⟨d.days + n⟩

/-- `Date::addYears` (date.cpp, lines 249-271): `days_in_year` is computed
once; each of the `n` steps adds 366 or 364 (day-of-year below 60) or 366
or 365 (otherwise); the per-step year is passed to `isLeapYear` through
its `uint16_t` parameter. -/
def addYears (n : Nat) (d : Date) : Date :=
  if n == 0 then d
  else
    let daysInYear := calcDaysInYear d.days
    let y0 := calcCurrentYear d.days + 1900
    let daysToAdd := (List.range n).foldl (fun acc i =>
      let y := y0 + i
      if daysInYear < 60 then
        if isLeapYear (y % 65536) then acc + 366 else acc + 364
      else
        if isLeapYear ((y + 1) % 65536) then acc + 366 else acc + 365) 0
    addDays daysToAdd d

end Date

/-- `Date::operator==`: compares the linear day counts. -/
def dateEq (l r : Date) : Bool := l.days == r.days

/-- `Date::operator<`: compares the linear day counts. -/
def dateLt (l r : Date) : Bool := decide (l.days < r.days)

/-- `tristan::date::operator!=`: `!(l == r)`. -/
def dateNe (l r : Date) : Bool := !(dateEq l r)

/-- `tristan::date::operator>` (date.cpp line 457): `!(l < r)`. -/
def dateGt (l r : Date) : Bool := !(dateLt l r)

/-- `tristan::date::operator<=`: `l < r || l == r`. -/
def dateLe (l r : Date) : Bool := dateLt l r || dateEq l r

/-- `tristan::date::operator>=`: `l > r || l == r`. -/
def dateGe (l r : Date) : Bool := dateGt l r || dateEq l r

/-- One iteration of the month loop in
`Date::Date(uint8_t, uint8_t, uint16_t)`: Februaries consult
`isLeapYear(duration_cast<Years>(m_days).count() + 1900)` on the partially
accumulated day count (through the `uint16_t` parameter). -/
def ymdMonthStep (d : Int) (m : Nat) : Int :=
  if m = 1 ∨ m = 3 ∨ m = 5 ∨ m = 7 ∨ m = 8 ∨ m = 10 ∨ m = 12 then d + 31
  else if m = 4 ∨ m = 6 ∨ m = 9 ∨ m = 11 then d + 30
  else if !(isLeapYear (u16i (Int.tdiv d 365 + 1900))) then d + 28 else d + 29

/-- `Date::Date(uint8_t day, uint8_t month, uint16_t year)`: the
validation guards in source order, then the linear count: 365 days per
year since 1900, a narrowed leap-day correction
`uint8_t(_calculateCurrentYear() * 365 / 1460)`, the month loop, and the
day. -/
def dateFromYMD (day month year : Nat) : Except Err Date :=
  if year < 1900 then .error .range
  else if day < 1 ∨ day > 31 then .error .range
  else if month < 1 ∨ month > 12 then .error .range
  else if (month = 4 ∨ month = 6 ∨ month = 9 ∨ month = 11) ∧ day = 31 then
    .error .range
  else if month = 2 ∧ ((isLeapYear year ∧ day > 29) ∨
      (¬ (isLeapYear year = true) ∧ day > 28)) then
    .error .range
  else
    let d0 : Int := ((year : Int) - 1900) * 365
    let d1 : Int := d0 + u8n (calcCurrentYear d0 * 365 / 1460)
    let d2 : Int := (List.range (month - 1)).foldl
      (fun d i => ymdMonthStep d (i + 1)) d1
    .ok ⟨d2 + day⟩

/-- `std::string::substr(pos, len)` as a character list. -/
def substr (s : String) (pos len : Nat) : List Char :=
  (s.data.drop pos).take len

/-- `std::stoi`: skips whitespace, consumes an optional sign and then a
non-empty digit run; `std::invalid_argument` when no digits follow. -/
def stoiChars (cs : List Char) : Except Err Int :=
  let cs := cs.dropWhile Char.isWhitespace
  match cs with
  | '-' :: rest => (stoiDigits rest).map (fun v => -(v : Int))
  | '+' :: rest => (stoiDigits rest).map (fun v => (v : Int))
  | _ => (stoiDigits cs).map (fun v => (v : Int))
where
  /-- Value of the leading digit run, or a format error if empty. -/
  stoiDigits (cs : List Char) : Except Err Nat :=
    let ds := cs.takeWhile Char.isDigit
    if ds.isEmpty then .error .format
    else .ok (ds.foldl (fun a c => a * 10 + (c.toNat - 48)) 0)

/-- `Date::Date(const std::string&)`: length must be 8 (`YYYYMMDD`) or 10
(`YYYY-MM-DD`); every character must be a digit or a hyphen; the year is
`stoi` of characters 0..3 narrowed to `uint16_t`, month and day are `stoi`
of the positions selected by the length, narrowed to `uint8_t`, and the
triple is delegated to the (day, month, year) constructor. -/
def dateFromIsoString (s : String) : Except Err Date :=
  if s.length ≠ 8 ∧ s.length ≠ 10 then .error .format
  else if s.data.all (fun c => c.isDigit || c == '-') then do
    let y ← stoiChars (substr s 0 4)
    let year := u16i y
    if s.length = 8 then do
      let m ← stoiChars (substr s 4 2)
      let d ← stoiChars (substr s 6 2)
      dateFromYMD (u8i d) (u8i m) year
    else do
      let m ← stoiChars (substr s 5 2)
      let d ← stoiChars (substr s 8 2)
      dateFromYMD (u8i d) (u8i m) year
  else .error .format

/-- The default global Date formatter (date.cpp anonymous namespace):
`year + '-' + zero-padded month + '-' + zero-padded day`, which is what
`Date::toString()` renders when no custom formatter was installed. -/
def dateToString (d : Date) : String :=
  let result := Nat.repr d.year
  let result := result ++ "-"
  let month := d.month
  let result := if month < 10 then result ++ "0" else result
  let result := result ++ Nat.repr month
  let result := result ++ "-"
  let day := d.dayOfTheMonth
  let result := if day < 10 then result ++ "0" else result
  result ++ Nat.repr day

/-- `tristan::date_time::DateTime`: one `Date` and one `Time`. -/
structure DateTime where
  date : Date
  time : Time

/-- `DateTime::operator==`: both members must compare equal. -/
def dtEq (l r : DateTime) : Bool :=
  dateEq l.date r.date && timeEq l.time r.time

/-- `DateTime::operator<` (date_time.cpp lines 74-84): returns false when
`m_date > other.m_date`; when the dates are equal, returns false when
`m_time >= other.m_time`; otherwise true. -/
def dtLt (l r : DateTime) : Bool :=
  if dateGt l.date r.date then false
  else
    if dateEq l.date r.date then
      if timeGe l.time r.time then false else true
    else true

/-- `tristan::date_time::operator!=`: `!(l == r)`. -/
def dtNe (l r : DateTime) : Bool := !(dtEq l r)

/-- `tristan::date_time::operator<=`: `l < r || l == r`. -/
def dtLe (l r : DateTime) : Bool := dtLt l r || dtEq l r

/-- `tristan::date_time::operator>`: `!(l <= r)`. -/
def dtGt (l r : DateTime) : Bool := !(dtLe l r)

/-- `tristan::date_time::operator>=`: `l > r || l == r`. -/
def dtGe (l r : DateTime) : Bool := dtGt l r || dtEq l r

/-! ### Concrete values used by the claim theorems -/

/-- The `Time` produced by `Time(10, 20)`: `MINUTES` precision, 620
minutes since day start. -/
def time1020 : Time := ⟨.minutes 620, 0, .MINUTES⟩

/-- The `Time` produced by `Time(23, 59, 59)`: `SECONDS` precision, 86399
seconds since day start. -/
def time235959 : Time := ⟨.seconds 86399, 0, .SECONDS⟩

/-- A `SECONDS`-precision value holding a full day of 86400 seconds. -/
def timeFullDay : Time := ⟨.seconds 86400, 0, .SECONDS⟩

/-- The `Time` produced by `Time(0, 0, 0)`. -/
def timeMidnightS : Time := ⟨.seconds 0, 0, .SECONDS⟩

/-- The `Time` produced by `Time(0, 0, 1)`. -/
def timeOneSecondS : Time := ⟨.seconds 1, 0, .SECONDS⟩

/-- The `Time` produced by `Time(1, 2, 3)`. -/
def time010203 : Time := ⟨.seconds 3723, 0, .SECONDS⟩

/-- The `Date` produced by `Date(1, 1, 2024)` (day count 45291). -/
def jan1of2024 : Date := ⟨45291⟩

/-- The `Date` produced by `Date(2, 1, 2024)` (day count 45292). -/
def jan2of2024 : Date := ⟨45292⟩

/-- The `Date` produced by `Date(15, 1, 2023)` (day count 44940). -/
def jan15of2023 : Date := ⟨44940⟩

/-- The `Date` produced by `Date(7, 1, 1900)`, a Sunday (day count 7). -/
def sunday19000107 : Date := ⟨7⟩

/-- The `Date` produced by `Date(6, 1, 1900)`, a Saturday (day count 6). -/
def saturday19000106 : Date := ⟨6⟩

/-! ### Claim theorems -/

/-- **C1.** The claim asserts `0 <= value < one_day` is preserved by every
add/subtract and that 23:59:59 plus one second wraps to 00:00:00.  The
code wraps only when the count strictly exceeds one day
(`_addSeconds`, time.cpp line 952: `> seconds_in_day`), so
`Time(23,59,59).addSeconds(1)` yields a stored count of exactly 86400
seconds — a full-day value whose `hours()` accessor reads 24 — instead of
wrapping to 0. -/
theorem c1_day_boundary_not_wrapped :
    timeFromHMS 23 59 59 = Except.ok time235959 ∧
    Time.addSeconds 1 time235959 = Except.ok timeFullDay ∧
    timeFullDay.store = .seconds 86400 ∧
    Time.hours timeFullDay = 24 := ⟨rfl, rfl, rfl, rfl⟩

/-- **C3.** The claim asserts arithmetic on a valid `Time` never fails.
`Time::addSeconds` at `MINUTES` precision (time.cpp lines 417-422) has no
`break`: for 60 or more seconds it calls `_addMinutes(seconds % 60)` and
then falls through into `_addSeconds`, whose `std::get<seconds>` on the
minutes-holding variant raises `std::bad_variant_access`.  So
`Time("10:20").addSeconds(60)` fails. -/
theorem c3_addSeconds_variant_crash :
    timeFromHM 10 20 = Except.ok time1020 ∧
    Time.addSeconds 60 time1020 = Except.error Err.variantAccess :=
  ⟨rfl, rfl⟩

/-- **C4.** Parsing `"2024-02-29"` and formatting with the default
formatter returns `"2024-02-29"`: the leap-day round trip through the
linear day count (45350) and the calendar-field derivation holds. -/
theorem c4_leap_day_round_trip :
    (dateFromIsoString "2024-02-29").map dateToString =
      Except.ok "2024-02-29" ∧
    dateFromIsoString "2024-02-29" = Except.ok ⟨45350⟩ := by
  constructor <;> rfl

/-- **C5.** The claim asserts every per-year step of `addYears` adds
exactly 365 or 366 days.  For a day-of-year below 60 in a non-leap year,
`Date::addYears` (date.cpp line 260) adds 364: starting from 2023-01-15,
`addYears(1)` advances the linear day count by 364, not 365. -/
theorem c5_addYears_adds_364 :
    dateFromYMD 15 1 2023 = Except.ok jan15of2023 ∧
    (Date.addYears 1 jan15of2023).days - jan15of2023.days = 364 :=
  ⟨rfl, rfl⟩

/-- **C8.** The claim (and the header comment on `Date::isWeekend`)
says Saturday and Sunday are weekend days.  The code returns
`dayOfTheWeek() > 5` where `dayOfTheWeek` ranges over 0..6 with
1900-01-01 (count 1) a Monday, so Sunday has index 0 and Saturday index 6:
only Saturday satisfies `> 5`.  1900-01-07, a Sunday, is reported as not
weekend, while 1900-01-06, a Saturday, is. -/
theorem c8_sunday_not_weekend :
    dateFromYMD 7 1 1900 = Except.ok sunday19000107 ∧
    Date.dayOfTheWeek sunday19000107 = 0 ∧
    Date.isWeekend sunday19000107 = false ∧
    dateFromYMD 6 1 1900 = Except.ok saturday19000106 ∧
    Date.dayOfTheWeek saturday19000106 = 6 ∧
    Date.isWeekend saturday19000106 = true :=
  ⟨rfl, rfl, rfl, rfl, rfl, rfl⟩

/-- **C7 counterexample.** The claim asserts `l > r` iff `r < l`, hence
`l > r` false for equal dates.  `tristan::date::operator>` is `!(l < r)`
(date.cpp line 457): on the date 2024-01-01 compared with itself, `==` is
true, `<` is false, and `>` is true, refuting the claim at this input. -/
theorem c7_counterexample :
    dateFromYMD 1 1 2024 = Except.ok jan1of2024 ∧
    dateEq jan1of2024 jan1of2024 = true ∧
    dateLt jan1of2024 jan1of2024 = false ∧
    dateGt jan1of2024 jan1of2024 = true :=
  ⟨rfl, rfl, rfl, rfl⟩

/-- **C7 amended.** Date's derived comparison operators satisfy:
`l > r` iff not `l < r` (so `l > r` is true when `l == r`);
`l <= r` iff `l < r` or `l == r`; `l >= r` iff `r < l` or `l == r`;
`l != r` iff not `l == r`. -/
theorem c7_amended_derived_operators (l r : Date) :
    (dateGt l r = true ↔ ¬ dateLt l r = true) ∧
    (dateLe l r = true ↔ (dateLt l r = true ∨ dateEq l r = true)) ∧
    (dateGe l r = true ↔ (dateLt r l = true ∨ dateEq l r = true)) ∧
    (dateNe l r = true ↔ ¬ dateEq l r = true) ∧
    (dateEq l r = true → dateGt l r = true) := by
  refine ⟨?_, ?_, ?_, ?_, ?_⟩ <;>
    simp [dateGt, dateLe, dateGe, dateNe, dateLt, dateEq] <;> omega

/-- **C2.** The claim asserts DateTime ordering is date-major, time-minor.
The date-major half holds (2024-01-01T23:59:59 < 2024-01-02T00:00:00),
but for equal dates `DateTime::operator<` is constantly false regardless
of the times: its first guard `m_date > other.m_date` uses
`tristan::date::operator>`, which is `!(l < r)` and hence already true
for equal dates.  Here 2024-01-01T00:00:00 is not `<`
2024-01-01T00:00:01 even though the times compare `<`. -/
theorem c2_equal_dates_ignore_time :
    dateFromYMD 1 1 2024 = Except.ok jan1of2024 ∧
    dateFromYMD 2 1 2024 = Except.ok jan2of2024 ∧
    timeFromHMS 0 0 0 = Except.ok timeMidnightS ∧
    timeFromHMS 0 0 1 = Except.ok timeOneSecondS ∧
    timeLt timeMidnightS timeOneSecondS = true ∧
    dtLt ⟨jan1of2024, timeMidnightS⟩ ⟨jan1of2024, timeOneSecondS⟩ = false ∧
    dtLt ⟨jan1of2024, time235959⟩ ⟨jan2of2024, timeMidnightS⟩ = true :=
  ⟨rfl, rfl, rfl, rfl, rfl, rfl, rfl⟩

/-- **C6.** `Date(day, month, year)` raises `std::range_error` exactly
when `year < 1900`, `day` is outside 1..31, `month` is outside 1..12, or
`day` exceeds the length of `month` in `year` (28/29 for February by leap
status, 30 for April/June/September/November, 31 otherwise), for all
arguments representable in the constructor's `uint8_t`/`uint16_t`
parameters. -/
theorem c6_fromYMD_range_error (day month year : Nat)
    (hd : day < 256) (hm : month < 256) (hy : year < 65536) :
    dateFromYMD day month year = Except.error Err.range ↔
      (year < 1900 ∨ day = 0 ∨ 31 < day ∨ month = 0 ∨ 12 < month ∨
        (if isLeapYear year then
          (if month = 2 then 29
           else if month = 4 ∨ month = 6 ∨ month = 9 ∨ month = 11 then 30
           else 31)
         else
          (if month = 2 then 28
           else if month = 4 ∨ month = 6 ∨ month = 9 ∨ month = 11 then 30
           else 31)) < day) := by
  cases hb : isLeapYear year <;>
    (unfold dateFromYMD; simp only [hb]; split_ifs <;> simp_all) <;> omega

/-- **C6 witness.** `Date(29, 2, 2023)` raises `std::range_error`
(2023 is not a leap year). -/
theorem c6_witness : dateFromYMD 29 2 2023 = Except.error Err.range :=
  (c6_fromYMD_range_error 29 2 2023 (by decide) (by decide)
    (by decide)).mpr (by decide)

/-- **C10.** For `Time` values of differing precision, `==` is false,
`!=` is true, `<` is false in both directions, and — since `operator>` is
`!(l <= r)` with `<=` built from the always-false `<` and `==` — `>` is
true in both directions: mismatched-precision Times are simultaneously
"greater than" each other. -/
theorem c10_mismatched_precision (l r : Time)
    (h : l.precision ≠ r.precision) :
    timeEq l r = false ∧ timeNe l r = true ∧
    timeLt l r = false ∧ timeLt r l = false ∧
    timeGt l r = true ∧ timeGt r l = true := by
  have h' : r.precision ≠ l.precision := fun e => h e.symm
  simp [timeEq, timeNe, timeLt, timeGt, timeLe, h, h']

/-- **C10 witness.** `Time(10,20)` (`MINUTES`) against `Time(0,0,0)`
(`SECONDS`). -/
theorem c10_witness :
    timeEq time1020 timeMidnightS = false ∧
    timeNe time1020 timeMidnightS = true ∧
    timeLt time1020 timeMidnightS = false ∧
    timeLt timeMidnightS time1020 = false ∧
    timeGt time1020 timeMidnightS = true ∧
    timeGt timeMidnightS time1020 = true :=
  c10_mismatched_precision time1020 timeMidnightS (by decide)

/-! ### Helper lemmas for the operator+ / operator- cascade (C9) -/

namespace Time

theorem ok_bind {α β : Type} (a : α) (f : α → Except Err β) :
    (Except.ok a : Except Err α) >>= f = f a := rfl

theorem _addMinutes_ok (n : Nat) (v : Int) :
    ∃ w, _addMinutes n (.minutes v) = .ok (.minutes w) := ⟨_, rfl⟩

theorem addHoursCore_ok (n : Nat) (p : Precision) (s : Store) (h : s.tag = p) :
    ∃ s', addHoursCore n p s = .ok s' ∧ s'.tag = p := by
  subst h
  cases s <;> (unfold addHoursCore; split <;> exact ⟨_, rfl, rfl⟩)

theorem addMinutesCore_ok (n : Nat) (p : Precision) (s : Store)
    (h : s.tag = p) :
    ∃ s', addMinutesCore n p s = .ok s' ∧ s'.tag = p := by
  subst h
  cases s <;> (unfold addMinutesCore; split <;> exact ⟨_, rfl, rfl⟩)

theorem addSecondsCore_ok (n : Nat) (p : Precision) (s : Store)
    (h : s.tag = p) (hp : Precision.SECONDS.rank ≤ p.rank) :
    ∃ s', addSecondsCore n p s = .ok s' ∧ s'.tag = p := by
  subst h
  cases s
  case minutes v => simp [Store.tag, Precision.rank] at hp
  all_goals (unfold addSecondsCore; split <;> exact ⟨_, rfl, rfl⟩)

theorem addMillisecondsCore_ok (n : Nat) (p : Precision) (s : Store)
    (h : s.tag = p) (hp : Precision.MILLISECONDS.rank ≤ p.rank) :
    ∃ s', addMillisecondsCore n p s = .ok s' ∧ s'.tag = p := by
  subst h
  cases s
  case minutes v => simp [Store.tag, Precision.rank] at hp
  case seconds v => simp [Store.tag, Precision.rank] at hp
  all_goals (unfold addMillisecondsCore; split <;> exact ⟨_, rfl, rfl⟩)

theorem addMicrosecondsCore_ok (n : Nat) (p : Precision) (s : Store)
    (h : s.tag = p) (hp : Precision.MICROSECONDS.rank ≤ p.rank) :
    ∃ s', addMicrosecondsCore n p s = .ok s' ∧ s'.tag = p := by
  subst h
  cases s
  case minutes v => simp [Store.tag, Precision.rank] at hp
  case seconds v => simp [Store.tag, Precision.rank] at hp
  case milliseconds v => simp [Store.tag, Precision.rank] at hp
  all_goals (unfold addMicrosecondsCore; split <;> exact ⟨_, rfl, rfl⟩)

theorem addNanosecondsCore_ok (n : Nat) (p : Precision) (s : Store)
    (h : s.tag = p) (hp : Precision.NANOSECONDS.rank ≤ p.rank) :
    ∃ s', addNanosecondsCore n p s = .ok s' ∧ s'.tag = p := by
  subst h
  cases s
  case minutes v => simp [Store.tag, Precision.rank] at hp
  case seconds v => simp [Store.tag, Precision.rank] at hp
  case milliseconds v => simp [Store.tag, Precision.rank] at hp
  case microseconds v => simp [Store.tag, Precision.rank] at hp
  all_goals (unfold addNanosecondsCore; split <;> exact ⟨_, rfl, rfl⟩)

theorem subtractHoursCore_ok (n : Nat) (p : Precision) (s : Store)
    (h : s.tag = p) :
    ∃ s', subtractHoursCore n p s = .ok s' ∧ s'.tag = p := by
  subst h
  cases s <;> (unfold subtractHoursCore; split <;> exact ⟨_, rfl, rfl⟩)

theorem subtractMinutesCore_ok (n : Nat) (p : Precision) (s : Store)
    (h : s.tag = p) :
    ∃ s', subtractMinutesCore n p s = .ok s' ∧ s'.tag = p := by
  subst h
  cases s <;> (unfold subtractMinutesCore; split <;> exact ⟨_, rfl, rfl⟩)

theorem subtractSecondsCore_ok (n : Nat) (p : Precision) (s : Store)
    (h : s.tag = p) (hp : Precision.SECONDS.rank ≤ p.rank) :
    ∃ s', subtractSecondsCore n p s = .ok s' ∧ s'.tag = p := by
  subst h
  cases s
  case minutes v => simp [Store.tag, Precision.rank] at hp
  all_goals (unfold subtractSecondsCore; split <;> exact ⟨_, rfl, rfl⟩)

theorem subtractMillisecondsCore_ok (n : Nat) (p : Precision) (s : Store)
    (h : s.tag = p) (hp : Precision.MILLISECONDS.rank ≤ p.rank) :
    ∃ s', subtractMillisecondsCore n p s = .ok s' ∧ s'.tag = p := by
  subst h
  cases s
  case minutes v => simp [Store.tag, Precision.rank] at hp
  case seconds v => simp [Store.tag, Precision.rank] at hp
  all_goals (unfold subtractMillisecondsCore; split <;> exact ⟨_, rfl, rfl⟩)

theorem subtractMicrosecondsCore_ok (n : Nat) (p : Precision) (s : Store)
    (h : s.tag = p) (hp : Precision.MICROSECONDS.rank ≤ p.rank) :
    ∃ s', subtractMicrosecondsCore n p s = .ok s' ∧ s'.tag = p := by
  subst h
  cases s
  case minutes v => simp [Store.tag, Precision.rank] at hp
  case seconds v => simp [Store.tag, Precision.rank] at hp
  case milliseconds v => simp [Store.tag, Precision.rank] at hp
  all_goals (unfold subtractMicrosecondsCore; split <;> exact ⟨_, rfl, rfl⟩)

theorem subtractNanosecondsCore_ok (n : Nat) (p : Precision) (s : Store)
    (h : s.tag = p) (hp : Precision.NANOSECONDS.rank ≤ p.rank) :
    ∃ s', subtractNanosecondsCore n p s = .ok s' ∧ s'.tag = p := by
  subst h
  cases s
  case minutes v => simp [Store.tag, Precision.rank] at hp
  case seconds v => simp [Store.tag, Precision.rank] at hp
  case milliseconds v => simp [Store.tag, Precision.rank] at hp
  case microseconds v => simp [Store.tag, Precision.rank] at hp
  all_goals (unfold subtractNanosecondsCore; split <;> exact ⟨_, rfl, rfl⟩)

theorem addHours_okT (n : Nat) (t : Time) (h : t.store.tag = t.precision) :
    ∃ t', Time.addHours n t = .ok t' ∧ t'.precision = t.precision ∧
      t'.offset = t.offset ∧ t'.store.tag = t.precision := by
  obtain ⟨s', hs, ht⟩ := addHoursCore_ok n t.precision t.store h
  exact ⟨{ t with store := s' }, by unfold Time.addHours; rw [hs]; rfl, rfl, rfl, ht⟩

theorem addMinutes_okT (n : Nat) (t : Time) (h : t.store.tag = t.precision) :
    ∃ t', Time.addMinutes n t = .ok t' ∧ t'.precision = t.precision ∧
      t'.offset = t.offset ∧ t'.store.tag = t.precision := by
  obtain ⟨s', hs, ht⟩ := addMinutesCore_ok n t.precision t.store h
  exact ⟨{ t with store := s' }, by unfold Time.addMinutes; rw [hs]; rfl, rfl, rfl, ht⟩

theorem addSeconds_okT (n : Nat) (t : Time) (h : t.store.tag = t.precision)
    (hp : Precision.SECONDS.rank ≤ t.precision.rank) :
    ∃ t', Time.addSeconds n t = .ok t' ∧ t'.precision = t.precision ∧
      t'.offset = t.offset ∧ t'.store.tag = t.precision := by
  obtain ⟨s', hs, ht⟩ := addSecondsCore_ok n t.precision t.store h hp
  exact ⟨{ t with store := s' }, by unfold Time.addSeconds; rw [hs]; rfl, rfl, rfl, ht⟩

theorem addMilliseconds_okT (n : Nat) (t : Time)
    (h : t.store.tag = t.precision)
    (hp : Precision.MILLISECONDS.rank ≤ t.precision.rank) :
    ∃ t', Time.addMilliseconds n t = .ok t' ∧ t'.precision = t.precision ∧
      t'.offset = t.offset ∧ t'.store.tag = t.precision := by
  obtain ⟨s', hs, ht⟩ := addMillisecondsCore_ok n t.precision t.store h hp
  exact ⟨{ t with store := s' }, by unfold Time.addMilliseconds; rw [hs]; rfl, rfl, rfl, ht⟩

theorem addMicroseconds_okT (n : Nat) (t : Time)
    (h : t.store.tag = t.precision)
    (hp : Precision.MICROSECONDS.rank ≤ t.precision.rank) :
    ∃ t', Time.addMicroseconds n t = .ok t' ∧ t'.precision = t.precision ∧
      t'.offset = t.offset ∧ t'.store.tag = t.precision := by
  obtain ⟨s', hs, ht⟩ := addMicrosecondsCore_ok n t.precision t.store h hp
  exact ⟨{ t with store := s' }, by unfold Time.addMicroseconds; rw [hs]; rfl, rfl, rfl, ht⟩

theorem addNanoseconds_okT (n : Nat) (t : Time)
    (h : t.store.tag = t.precision)
    (hp : Precision.NANOSECONDS.rank ≤ t.precision.rank) :
    ∃ t', Time.addNanoseconds n t = .ok t' ∧ t'.precision = t.precision ∧
      t'.offset = t.offset ∧ t'.store.tag = t.precision := by
  obtain ⟨s', hs, ht⟩ := addNanosecondsCore_ok n t.precision t.store h hp
  exact ⟨{ t with store := s' }, by unfold Time.addNanoseconds; rw [hs]; rfl, rfl, rfl, ht⟩

theorem subtractHours_okT (n : Nat) (t : Time)
    (h : t.store.tag = t.precision) :
    ∃ t', Time.subtractHours n t = .ok t' ∧ t'.precision = t.precision ∧
      t'.offset = t.offset ∧ t'.store.tag = t.precision := by
  obtain ⟨s', hs, ht⟩ := subtractHoursCore_ok n t.precision t.store h
  exact ⟨{ t with store := s' }, by unfold Time.subtractHours; rw [hs]; rfl, rfl, rfl, ht⟩

theorem subtractMinutes_okT (n : Nat) (t : Time)
    (h : t.store.tag = t.precision) :
    ∃ t', Time.subtractMinutes n t = .ok t' ∧ t'.precision = t.precision ∧
      t'.offset = t.offset ∧ t'.store.tag = t.precision := by
  obtain ⟨s', hs, ht⟩ := subtractMinutesCore_ok n t.precision t.store h
  exact ⟨{ t with store := s' }, by unfold Time.subtractMinutes; rw [hs]; rfl, rfl, rfl, ht⟩

theorem subtractSeconds_okT (n : Nat) (t : Time)
    (h : t.store.tag = t.precision)
    (hp : Precision.SECONDS.rank ≤ t.precision.rank) :
    ∃ t', Time.subtractSeconds n t = .ok t' ∧ t'.precision = t.precision ∧
      t'.offset = t.offset ∧ t'.store.tag = t.precision := by
  obtain ⟨s', hs, ht⟩ := subtractSecondsCore_ok n t.precision t.store h hp
  exact ⟨{ t with store := s' }, by unfold Time.subtractSeconds; rw [hs]; rfl, rfl, rfl, ht⟩

theorem subtractMilliseconds_okT (n : Nat) (t : Time)
    (h : t.store.tag = t.precision)
    (hp : Precision.MILLISECONDS.rank ≤ t.precision.rank) :
    ∃ t', Time.subtractMilliseconds n t = .ok t' ∧ t'.precision = t.precision ∧
      t'.offset = t.offset ∧ t'.store.tag = t.precision := by
  obtain ⟨s', hs, ht⟩ := subtractMillisecondsCore_ok n t.precision t.store h hp
  exact ⟨{ t with store := s' }, by unfold Time.subtractMilliseconds; rw [hs]; rfl, rfl, rfl, ht⟩

theorem subtractMicroseconds_okT (n : Nat) (t : Time)
    (h : t.store.tag = t.precision)
    (hp : Precision.MICROSECONDS.rank ≤ t.precision.rank) :
    ∃ t', Time.subtractMicroseconds n t = .ok t' ∧ t'.precision = t.precision ∧
      t'.offset = t.offset ∧ t'.store.tag = t.precision := by
  obtain ⟨s', hs, ht⟩ := subtractMicrosecondsCore_ok n t.precision t.store h hp
  exact ⟨{ t with store := s' }, by unfold Time.subtractMicroseconds; rw [hs]; rfl, rfl, rfl, ht⟩

theorem subtractNanoseconds_okT (n : Nat) (t : Time)
    (h : t.store.tag = t.precision)
    (hp : Precision.NANOSECONDS.rank ≤ t.precision.rank) :
    ∃ t', Time.subtractNanoseconds n t = .ok t' ∧ t'.precision = t.precision ∧
      t'.offset = t.offset ∧ t'.store.tag = t.precision := by
  obtain ⟨s', hs, ht⟩ := subtractNanosecondsCore_ok n t.precision t.store h hp
  exact ⟨{ t with store := s' }, by unfold Time.subtractNanoseconds; rw [hs]; rfl, rfl, rfl, ht⟩

theorem precMax_of_le {a b : Precision} (h : b.rank ≤ a.rank) :
    Precision.max a b = a := by
  unfold Precision.max
  split
  · rfl
  · have : b.rank = a.rank := by omega
    cases a <;> cases b <;> simp_all [Precision.rank]

end Time

theorem timeAddAt_ok (p : Time.Precision) (t r : Time)
    (h1 : t.precision = p) (h2 : t.store.tag = p) :
    ∃ t', timeAddAt p t r = .ok t' ∧ t'.precision = p ∧
      t'.store.tag = t'.precision := by
  have hw : t.store.tag = t.precision := h2.trans h1.symm
  cases p with
  | MINUTES =>
      obtain ⟨t1, e1, p1, o1, g1⟩ := Time.addMinutes_okT (Time.minutes r) t hw
      obtain ⟨t2, e2, p2, o2, g2⟩ :=
        Time.addHours_okT (Time.hours r) t1 (g1.trans p1.symm)
      exact ⟨t2, by simp only [timeAddAt, e1, Time.ok_bind, e2],
        (p2.trans p1).trans h1, g2.trans p2.symm⟩
  | SECONDS =>
      obtain ⟨t1, e1, p1, o1, g1⟩ :=
        Time.addSeconds_okT (Time.seconds r) t hw
          (by simp [h1, Time.Precision.rank])
      obtain ⟨t2, e2, p2, o2, g2⟩ :=
        Time.addMinutes_okT (Time.minutes r) t1 (g1.trans p1.symm)
      obtain ⟨t3, e3, p3, o3, g3⟩ :=
        Time.addHours_okT (Time.hours r) t2 (g2.trans p2.symm)
      exact ⟨t3, by simp only [timeAddAt, e1, Time.ok_bind, e2, e3],
        ((p3.trans p2).trans p1).trans h1, g3.trans p3.symm⟩
  | MILLISECONDS =>
      obtain ⟨t1, e1, p1, o1, g1⟩ :=
        Time.addMilliseconds_okT (Time.milliseconds r) t hw
          (by simp [h1, Time.Precision.rank])
      obtain ⟨t2, e2, p2, o2, g2⟩ :=
        Time.addSeconds_okT (Time.seconds r) t1 (g1.trans p1.symm)
          (by simp [p1, h1, Time.Precision.rank])
      obtain ⟨t3, e3, p3, o3, g3⟩ :=
        Time.addMinutes_okT (Time.minutes r) t2 (g2.trans p2.symm)
      obtain ⟨t4, e4, p4, o4, g4⟩ :=
        Time.addHours_okT (Time.hours r) t3 (g3.trans p3.symm)
      exact ⟨t4, by simp only [timeAddAt, e1, Time.ok_bind, e2, e3, e4],
        (((p4.trans p3).trans p2).trans p1).trans h1, g4.trans p4.symm⟩
  | MICROSECONDS =>
      obtain ⟨t1, e1, p1, o1, g1⟩ :=
        Time.addMicroseconds_okT (Time.microseconds r) t hw
          (by simp [h1, Time.Precision.rank])
      obtain ⟨t2, e2, p2, o2, g2⟩ :=
        Time.addMilliseconds_okT (Time.milliseconds r) t1 (g1.trans p1.symm)
          (by simp [p1, h1, Time.Precision.rank])
      obtain ⟨t3, e3, p3, o3, g3⟩ :=
        Time.addSeconds_okT (Time.seconds r) t2 (g2.trans p2.symm)
          (by simp [p2, p1, h1, Time.Precision.rank])
      obtain ⟨t4, e4, p4, o4, g4⟩ :=
        Time.addMinutes_okT (Time.minutes r) t3 (g3.trans p3.symm)
      obtain ⟨t5, e5, p5, o5, g5⟩ :=
        Time.addHours_okT (Time.hours r) t4 (g4.trans p4.symm)
      exact ⟨t5, by simp only [timeAddAt, e1, Time.ok_bind, e2, e3, e4, e5],
        ((((p5.trans p4).trans p3).trans p2).trans p1).trans h1,
        g5.trans p5.symm⟩
  | NANOSECONDS =>
      obtain ⟨t1, e1, p1, o1, g1⟩ :=
        Time.addNanoseconds_okT (Time.nanoseconds r) t hw
          (by simp [h1, Time.Precision.rank])
      obtain ⟨t2, e2, p2, o2, g2⟩ :=
        Time.addMicroseconds_okT (Time.microseconds r) t1 (g1.trans p1.symm)
          (by simp [p1, h1, Time.Precision.rank])
      obtain ⟨t3, e3, p3, o3, g3⟩ :=
        Time.addMilliseconds_okT (Time.milliseconds r) t2 (g2.trans p2.symm)
          (by simp [p2, p1, h1, Time.Precision.rank])
      obtain ⟨t4, e4, p4, o4, g4⟩ :=
        Time.addSeconds_okT (Time.seconds r) t3 (g3.trans p3.symm)
          (by simp [p3, p2, p1, h1, Time.Precision.rank])
      obtain ⟨t5, e5, p5, o5, g5⟩ :=
        Time.addMinutes_okT (Time.minutes r) t4 (g4.trans p4.symm)
      obtain ⟨t6, e6, p6, o6, g6⟩ :=
        Time.addHours_okT (Time.hours r) t5 (g5.trans p5.symm)
      exact ⟨t6,
        by simp only [timeAddAt, e1, Time.ok_bind, e2, e3, e4, e5, e6],
        (((((p6.trans p5).trans p4).trans p3).trans p2).trans p1).trans h1,
        g6.trans p6.symm⟩

theorem timeSubAt_ok (p : Time.Precision) (t r : Time)
    (h1 : t.precision = p) (h2 : t.store.tag = p) :
    ∃ t', timeSubAt p t r = .ok t' ∧ t'.precision = p ∧
      t'.store.tag = t'.precision := by
  have hw : t.store.tag = t.precision := h2.trans h1.symm
  cases p with
  | MINUTES =>
      obtain ⟨t1, e1, p1, o1, g1⟩ :=
        Time.subtractMinutes_okT (Time.minutes r) t hw
      obtain ⟨t2, e2, p2, o2, g2⟩ :=
        Time.subtractHours_okT (Time.hours r) t1 (g1.trans p1.symm)
      exact ⟨t2, by simp only [timeSubAt, e1, Time.ok_bind, e2],
        (p2.trans p1).trans h1, g2.trans p2.symm⟩
  | SECONDS =>
      obtain ⟨t1, e1, p1, o1, g1⟩ :=
        Time.subtractSeconds_okT (Time.seconds r) t hw
          (by simp [h1, Time.Precision.rank])
      obtain ⟨t2, e2, p2, o2, g2⟩ :=
        Time.subtractMinutes_okT (Time.minutes r) t1 (g1.trans p1.symm)
      obtain ⟨t3, e3, p3, o3, g3⟩ :=
        Time.subtractHours_okT (Time.hours r) t2 (g2.trans p2.symm)
      exact ⟨t3, by simp only [timeSubAt, e1, Time.ok_bind, e2, e3],
        ((p3.trans p2).trans p1).trans h1, g3.trans p3.symm⟩
  | MILLISECONDS =>
      obtain ⟨t1, e1, p1, o1, g1⟩ :=
        Time.subtractMilliseconds_okT (Time.milliseconds r) t hw
          (by simp [h1, Time.Precision.rank])
      obtain ⟨t2, e2, p2, o2, g2⟩ :=
        Time.subtractSeconds_okT (Time.seconds r) t1 (g1.trans p1.symm)
          (by simp [p1, h1, Time.Precision.rank])
      obtain ⟨t3, e3, p3, o3, g3⟩ :=
        Time.subtractMinutes_okT (Time.minutes r) t2 (g2.trans p2.symm)
      obtain ⟨t4, e4, p4, o4, g4⟩ :=
        Time.subtractHours_okT (Time.hours r) t3 (g3.trans p3.symm)
      exact ⟨t4, by simp only [timeSubAt, e1, Time.ok_bind, e2, e3, e4],
        (((p4.trans p3).trans p2).trans p1).trans h1, g4.trans p4.symm⟩
  | MICROSECONDS =>
      obtain ⟨t1, e1, p1, o1, g1⟩ :=
        Time.subtractMicroseconds_okT (Time.microseconds r) t hw
          (by simp [h1, Time.Precision.rank])
      obtain ⟨t2, e2, p2, o2, g2⟩ :=
        Time.subtractMilliseconds_okT (Time.milliseconds r) t1
          (g1.trans p1.symm) (by simp [p1, h1, Time.Precision.rank])
      obtain ⟨t3, e3, p3, o3, g3⟩ :=
        Time.subtractSeconds_okT (Time.seconds r) t2 (g2.trans p2.symm)
          (by simp [p2, p1, h1, Time.Precision.rank])
      obtain ⟨t4, e4, p4, o4, g4⟩ :=
        Time.subtractMinutes_okT (Time.minutes r) t3 (g3.trans p3.symm)
      obtain ⟨t5, e5, p5, o5, g5⟩ :=
        Time.subtractHours_okT (Time.hours r) t4 (g4.trans p4.symm)
      exact ⟨t5, by simp only [timeSubAt, e1, Time.ok_bind, e2, e3, e4, e5],
        ((((p5.trans p4).trans p3).trans p2).trans p1).trans h1,
        g5.trans p5.symm⟩
  | NANOSECONDS =>
      obtain ⟨t1, e1, p1, o1, g1⟩ :=
        Time.subtractNanoseconds_okT (Time.nanoseconds r) t hw
          (by simp [h1, Time.Precision.rank])
      obtain ⟨t2, e2, p2, o2, g2⟩ :=
        Time.subtractMicroseconds_okT (Time.microseconds r) t1
          (g1.trans p1.symm) (by simp [p1, h1, Time.Precision.rank])
      obtain ⟨t3, e3, p3, o3, g3⟩ :=
        Time.subtractMilliseconds_okT (Time.milliseconds r) t2
          (g2.trans p2.symm) (by simp [p2, p1, h1, Time.Precision.rank])
      obtain ⟨t4, e4, p4, o4, g4⟩ :=
        Time.subtractSeconds_okT (Time.seconds r) t3 (g3.trans p3.symm)
          (by simp [p3, p2, p1, h1, Time.Precision.rank])
      obtain ⟨t5, e5, p5, o5, g5⟩ :=
        Time.subtractMinutes_okT (Time.minutes r) t4 (g4.trans p4.symm)
      obtain ⟨t6, e6, p6, o6, g6⟩ :=
        Time.subtractHours_okT (Time.hours r) t5 (g5.trans p5.symm)
      exact ⟨t6,
        by simp only [timeSubAt, e1, Time.ok_bind, e2, e3, e4, e5, e6],
        (((((p6.trans p5).trans p4).trans p3).trans p2).trans p1).trans h1,
        g6.trans p6.symm⟩

/-- **C9 counterexample.** The claim says the result of `+`/`-` takes the
coarser-grained operand's precision, reading `max` with a lower ordinal as
finer.  In the code the ordinals grow from `MINUTES = 0` to
`NANOSECONDS = 4`, so `std::max` picks the *finer* operand:
`Time(1,2,3) + Time(10,20)` has precision `SECONDS`, not the coarser
`MINUTES`.  Moreover the claimed cascade does not always produce a value:
`Time(10,20) + Time(1,2,3)` raises `std::bad_variant_access`, because the
copy of the coarser left operand keeps its minutes-holding variant while
the cascade dispatches at `SECONDS` precision. -/
theorem c9_counterexample :
    timeFromHMS 1 2 3 = Except.ok time010203 ∧
    timeFromHM 10 20 = Except.ok time1020 ∧
    time010203.precision = Time.Precision.SECONDS ∧
    time1020.precision = Time.Precision.MINUTES ∧
    (timeAdd time010203 time1020).map Time.precision =
      Except.ok Time.Precision.SECONDS ∧
    timeAdd time1020 time010203 = Except.error Err.variantAccess :=
  ⟨rfl, rfl, rfl, rfl, rfl, rfl⟩

/-- **C9 amended.** For `operator+`/`operator-` the *finer*-grained
operand wins: the result precision is `max(l.precision, r.precision)`
where a higher `Precision` ordinal is finer.  When the right operand's
precision is at most the left's, both operations succeed, cascading each
accessor field of `r` into a copy of `l` from the finest level of the
result precision down to minutes with wraparound at each level, and the
result's variant agrees with its precision; when the left operand is
strictly coarser the cascade instead accesses the variant at the wrong
alternative and fails (see the counterexample). -/
theorem c9_finer_precision_wins (l r : Time)
    (hw : l.store.tag = l.precision)
    (hp : r.precision.rank ≤ l.precision.rank) :
    (∃ t', timeAdd l r = .ok t' ∧
       t'.precision = Time.Precision.max l.precision r.precision ∧
       t'.store.tag = t'.precision) ∧
    (∃ t', timeSub l r = .ok t' ∧
       t'.precision = Time.Precision.max l.precision r.precision ∧
       t'.store.tag = t'.precision) := by
  have hmax := Time.precMax_of_le hp
  constructor
  · obtain ⟨t', e, hpr, htag⟩ :=
      timeAddAt_ok l.precision { l with precision := l.precision } r rfl hw
    refine ⟨t', ?_, hpr.trans hmax.symm, htag⟩
    unfold timeAdd
    rw [hmax]
    exact e
  · obtain ⟨t', e, hpr, htag⟩ :=
      timeSubAt_ok l.precision { l with precision := l.precision } r rfl hw
    refine ⟨t', ?_, hpr.trans hmax.symm, htag⟩
    unfold timeSub
    rw [hmax]
    exact e

/-- **C9 witness.** The amended statement applied to `Time(1,2,3)`
(`SECONDS`) and `Time(10,20)` (`MINUTES`). -/
theorem c9_witness :
    (∃ t', timeAdd time010203 time1020 = .ok t' ∧
       t'.precision =
         Time.Precision.max time010203.precision time1020.precision ∧
       t'.store.tag = t'.precision) ∧
    (∃ t', timeSub time010203 time1020 = .ok t' ∧
       t'.precision =
         Time.Precision.max time010203.precision time1020.precision ∧
       t'.store.tag = t'.precision) :=
  c9_finer_precision_wins time010203 time1020 rfl (by decide)

end Tristan
